import Mathlib

/-!
Shallow embedding of the decision core of `python-radius/radius_server.py`:
MAC normalization (`DatabaseManager.normalize_mac`), the three-tier VLAN
resolution (`DatabaseManager.get_vlan_for_mac`), audit logging
(`DatabaseManager.log_radius_request`), and the request handler
(`UniFiRadiusServer.HandleAuthPacket`) with its reply builders.

The external MySQL store is modelled as explicit lists of rows for the three
tables the queries touch (`radreply`, `mac_prefixes`, `default_vlan_config`),
plus flags for the failure points of one request: `get_connection`
returning `None`, `conn.cursor()` raising on a stale pooled connection, a
SELECT raising `mysql.connector.Error`, and the audit INSERT raising
`mysql.connector.Error`.  Store interactions are recorded in an event trace
so that "no lookup was issued" style properties can be stated.
-/

namespace UnifiRadius

/-! ### MacNormalizer: `DatabaseManager.normalize_mac`

The source works on Python strings; we embed them as `List Char` (with a
`String` wrapper), modelling the Python character predicates for the ASCII
range. -/

/-- Models Python `str.isalnum()` (ASCII range): letters and digits. -/
def pyIsAlnum (c : Char) : Bool := c.isAlphanum

/-- Models Python `str.lower()` (ASCII range): maps A-Z to a-z. -/
def pyToLower (c : Char) : Char := c.toLower

/-- Models `''.join(c.lower() for c in mac if c.isalnum())`. -/
def cleanMac (l : List Char) : List Char := (l.filter pyIsAlnum).map pyToLower

/-- A hexadecimal digit as accepted by Python `int(_, 16)`. -/
def pyIsHexDigit (c : Char) : Bool :=
  c.isDigit || ('a' ≤ c && c ≤ 'f') || ('A' ≤ c && c ≤ 'F')

/-- Models success of Python `int(s, 16)` on a string of alphanumeric
characters (signs, whitespace and underscores cannot occur after the alnum
filter): either all characters are hex digits, or the string carries the
optional `0x`/`0X` prefix that `int` with base 16 accepts, followed by at
least one hex digit. -/
def pyIntBase16Ok (l : List Char) : Bool :=
  (!l.isEmpty && l.all pyIsHexDigit) ||
  (match l with
   | '0' :: c :: rest => (c = 'x' || c = 'X') && !rest.isEmpty && rest.all pyIsHexDigit
   | _ => false)

/-- Models `':'.join(clean_mac[i:i+2] for i in range(0, 12, 2))`: join the
2-character chunks with colons (the source only applies it to 12-character
strings). -/
def insertColons : List Char → List Char
  | a :: b :: c :: rest => a :: b :: ':' :: insertColons (c :: rest)
  | l => l

/-- `DatabaseManager.normalize_mac` on the character-list representation.
`if not mac` (None or empty) → `None`; strip non-alphanumerics and lowercase;
length must be 12; `int(clean_mac, 16)` must not raise; re-insert colons. -/
def normalizeList (l : List Char) : Option (List Char) :=
  if l.isEmpty then none
  else if (cleanMac l).length = 12 then
    if pyIntBase16Ok (cleanMac l) then some (insertColons (cleanMac l)) else none
  else none

/-- `DatabaseManager.normalize_mac` on `String`s. -/
def normalize_mac (s : String) : Option String :=
  (normalizeList s.toList).map String.mk

example : normalize_mac "AA:BB:CC:DD:EE:FF" = some "aa:bb:cc:dd:ee:ff" := by decide
example : normalize_mac "aa-bb-cc-11-22-33" = some "aa:bb:cc:11:22:33" := by decide
example : normalize_mac "aabbccddeeff" = some "aa:bb:cc:dd:ee:ff" := by decide
example : normalize_mac "invalid-mac" = none := by decide
example : normalize_mac "" = none := by decide
example : normalize_mac "AA:BB:CC:DD:EE" = none := by decide
example : normalize_mac "0xaabbccddee" = some "0x:aa:bb:cc:dd:ee" := by decide

/-! ### Store model: the three tables touched by `get_vlan_for_mac`

`radreply.value` is a text column that the source immediately parses with
Python `int(...)`; the rows are modelled with the parsed integer. -/

/-- A row of the `radreply` table (the fields the query touches). -/
structure RadReplyRow where
  username : String
  attrName : String
  value : Int
deriving DecidableEq, Repr

/-- A row of the `mac_prefixes` table. -/
structure MacPrefixRow where
  pfx : String
  vlan_id : Int
deriving DecidableEq, Repr

/-- A row of the `default_vlan_config` table. -/
structure DefaultVlanRow where
  id : Nat
  enabled : Bool
  vlan_id : Int
deriving DecidableEq, Repr

/-- The persistent store: the three tables consulted during resolution. -/
structure Store where
  radreply : List RadReplyRow
  mac_prefixes : List MacPrefixRow
  default_vlan_config : List DefaultVlanRow
deriving DecidableEq, Repr

/-- Models `SELECT value FROM radreply WHERE username = %s AND
attribute = 'Tunnel-Private-Group-ID' LIMIT 1`. -/
def findExact (st : Store) (mac : String) : Option Int :=
  (st.radreply.find? fun r =>
    r.username = mac && r.attrName = "Tunnel-Private-Group-ID").map (·.value)

/-- Models `SELECT vlan_id FROM mac_prefixes WHERE prefix = %s LIMIT 1`. -/
def findPfx (st : Store) (p : String) : Option Int :=
  (st.mac_prefixes.find? fun r => r.pfx = p).map (·.vlan_id)

/-- Models `ORDER BY id DESC LIMIT 1`: the row with the greatest `id`. -/
def pickMaxId : List DefaultVlanRow → Option DefaultVlanRow
  | [] => none
  | r :: rest =>
    match pickMaxId rest with
    | none => some r
    | some b => if b.id < r.id then some r else some b

/-- Models `SELECT vlan_id FROM default_vlan_config WHERE enabled = 1
ORDER BY id DESC LIMIT 1`. -/
def findDefault (st : Store) : Option Int :=
  (pickMaxId (st.default_vlan_config.filter (·.enabled))).map (·.vlan_id)

/-- Models Python `s.split(':')` on the character-list representation. -/
def splitOnColon : List Char → List (List Char)
  | [] => [[]]
  | c :: rest =>
    let r := splitOnColon rest
    if c = ':' then [] :: r
    else
      match r with
      | [] => [[c]]
      | g :: gs => (c :: g) :: gs

/-- Models Python `':'.join(groups)`. -/
def joinColon : List (List Char) → List Char
  | [] => []
  | [g] => g
  | g :: gs => g ++ ':' :: joinColon gs

/-- Models `':'.join(normalized_mac.split(':')[:3])`. -/
def macPfx (nm : String) : String :=
  String.mk (joinColon ((splitOnColon nm.toList).take 3))

example : macPfx "aa:bb:cc:dd:ee:ff" = "aa:bb:cc" := by decide

/-! ### Connection / failure model and resolution

`get_connection` caches one connection per thread with no health check, so a
request can hold a connection object whose underlying session has died.  In
both `get_vlan_for_mac` and `log_radius_request` the cursor is created
*inside* the `try` whose `finally` runs `cursor.close()`: when `conn.cursor()`
itself raises (stale pooled connection), the `except` clause catches the
database error, but the `finally` then references the never-bound local
`cursor` and raises `UnboundLocalError` to the caller.  The model therefore
distinguishes failures of connection acquisition, cursor creation, SELECT
execution and INSERT execution, and database calls return `Except` to express
an exception escaping to the caller. -/

/-- An exception escaping a database helper to its caller. -/
inductive PyExn where
  | unboundLocal
deriving DecidableEq, Repr

instance {e a : Type} [DecidableEq e] [DecidableEq a] : DecidableEq (Except e a) :=
  fun x y =>
    match x, y with
    | Except.ok v, Except.ok w =>
      if h : v = w then isTrue (by rw [h]) else isFalse (by intro hc; cases hc; exact h rfl)
    | Except.error v, Except.error w =>
      if h : v = w then isTrue (by rw [h]) else isFalse (by intro hc; cases hc; exact h rfl)
    | Except.ok _, Except.error _ => isFalse (by intro hc; cases hc)
    | Except.error _, Except.ok _ => isFalse (by intro hc; cases hc)

/-- Message text of the escaped exception (`str(e)`). -/
def pyExnMsg : PyExn → String
  | PyExn.unboundLocal => "local variable 'cursor' referenced before assignment"

/-- The state of the store as seen by one request: `avail` models
`get_connection()` returning a connection rather than `None`; `failCursor`
models `conn.cursor()` raising `mysql.connector.Error` on a stale pooled
connection; `failQueries` models the SELECTs of `get_vlan_for_mac` raising
`mysql.connector.Error`; `failInsert` models the audit INSERT raising
`mysql.connector.Error`. -/
structure Db where
  avail : Bool
  failCursor : Bool
  failQueries : Bool
  failInsert : Bool
  store : Store
deriving DecidableEq, Repr

/-- Store-interaction events: entering the resolver (which immediately
normalizes), obtaining a connection, the three rule lookups, and the audit
insert. -/
inductive QEvent where
  | nrm
  | connect
  | qExact
  | qPfx
  | qDefault
  | qInsert
deriving DecidableEq, Repr

/-- `DatabaseManager.get_vlan_for_mac`: normalize, get a connection, then try
exact match, prefix match, default VLAN in that order; `Except.ok none`
stands for the source's `(None, None)` and `Except.ok (some (v, mt))` for
`(vlan_id, match_type)`, `mt` being the source's match-type string.  When
`conn.cursor()` raises, the `except` pends the `(None, None)` return but
`finally: cursor.close()` raises `UnboundLocalError` out of the function
(`Except.error`); when a SELECT raises, the cursor is bound, so the handler's
`(None, None)` return stands.  Alongside the result we return the trace of
store interactions performed. -/
def get_vlan_for_mac (db : Db) (mac : String) :
    Except PyExn (Option (Int × String)) × List QEvent :=
  match normalize_mac mac with
  | none => (Except.ok none, [QEvent.nrm])
  | some nm =>
    if db.avail then
      if db.failCursor then
        (Except.error PyExn.unboundLocal, [QEvent.nrm, QEvent.connect])
      else if db.failQueries then
        (Except.ok none, [QEvent.nrm, QEvent.connect, QEvent.qExact])
      else
        match findExact db.store nm with
        | some v =>
          (Except.ok (some (v, "exact")),
           [QEvent.nrm, QEvent.connect, QEvent.qExact])
        | none =>
          match findPfx db.store (macPfx nm) with
          | some v =>
            (Except.ok (some (v, "prefix")),
             [QEvent.nrm, QEvent.connect, QEvent.qExact, QEvent.qPfx])
          | none =>
            match findDefault db.store with
            | some v =>
              (Except.ok (some (v, "default")),
               [QEvent.nrm, QEvent.connect, QEvent.qExact, QEvent.qPfx,
                QEvent.qDefault])
            | none =>
              (Except.ok none,
               [QEvent.nrm, QEvent.connect, QEvent.qExact, QEvent.qPfx,
                QEvent.qDefault])
    else (Except.ok none, [QEvent.nrm, QEvent.connect])

/-! ### RequestAuditor: `DatabaseManager.log_radius_request` -/

/-- The arguments of one `log_radius_request` call (the source's keyword
parameters; optional ones are `Option`s, `None` by default in the source). -/
structure AuditFields where
  username : Option String
  nas_ip : Option String
  nas_port : Option String
  called_station_id : Option String
  calling_station_id : Option String
  request_type : String
  response_type : String
  reason : String
deriving DecidableEq, Repr

/-- `DatabaseManager.log_radius_request`: obtain a connection (`ok false`
when none), create a cursor (`Except.error` when `conn.cursor()` raises: the
`except` pends `return False` but `finally: cursor.close()` raises
`UnboundLocalError` to the caller), run the INSERT (`ok false` when it raises
`mysql.connector.Error`, `ok true` otherwise), with the trace of store
interactions. -/
def log_radius_request (db : Db) (f : AuditFields) : Except PyExn Bool × List QEvent :=
  if db.avail then
    if db.failCursor then (Except.error PyExn.unboundLocal, [QEvent.connect])
    else if db.failInsert then (Except.ok false, [QEvent.connect, QEvent.qInsert])
    else (Except.ok true, [QEvent.connect, QEvent.qInsert])
  else (Except.ok false, [QEvent.connect])

/-! ### Protocol layer: packets and replies -/

/-- The inbound authentication packet as consumed by `HandleAuthPacket`:
optional first values of the named attributes, plus the transport source
address (`str(pkt.source[0])`). -/
structure Packet where
  calling_station_id : Option String
  user_name : Option String
  nas_ip : Option String
  nas_port : Option String
  called_station_id : Option String
  sourceIp : String
deriving DecidableEq, Repr

/-- A reply attribute value: `AddAttribute` is called with an integer for the
tunnel type/medium and with a string for the group id. -/
inductive AttrVal where
  | intVal (n : Int)
  | strVal (s : String)
deriving DecidableEq, Repr

/-- The reply object: code (pyrad `AccessAccept` = 2, `AccessReject` = 3),
added attributes in order, and the copied source address. -/
structure Reply where
  code : Nat
  attrs : List (String × AttrVal)
  source : String
deriving DecidableEq, Repr

/-- `UniFiRadiusServer.create_accept_packet`. -/
def create_accept_packet (pkt : Packet) (vlan_id : Int) : Reply :=
  { code := 2
    attrs := [("Tunnel-Type", AttrVal.intVal 13),
              ("Tunnel-Medium-Type", AttrVal.intVal 6),
              ("Tunnel-Private-Group-ID", AttrVal.strVal (toString vlan_id))]
    source := pkt.sourceIp }

/-- `UniFiRadiusServer.create_reject_packet`. -/
def create_reject_packet (pkt : Packet) : Reply :=
  { code := 3, attrs := [], source := pkt.sourceIp }

/-- The identity-extraction step of `HandleAuthPacket`: the
`Calling-Station-Id` attribute first (key presence, not truthiness), else
`User-Name`, else nothing. -/
def extractIdentity (pkt : Packet) : Option String :=
  match pkt.calling_station_id with
  | some m => some m
  | none => pkt.user_name

/-! ### AuthDecisionEngine: `UniFiRadiusServer.HandleAuthPacket`

The body of the `try` can raise in three ways: an injected unexpected fault
(the `fault` parameter, raised after the attribute-extraction block where all
the locals consulted by the handler are already assigned), the resolver
raising `UnboundLocalError`, or an audit call raising `UnboundLocalError`.
The `except Exception` clause then calls `log_radius_request` again; if that
call itself raises, the exception escapes `HandleAuthPacket` before any reply
is assigned or sent, which the model renders as a `none` reply. -/

/-- The audit fields `HandleAuthPacket` passes to `log_radius_request`. -/
def mkAuditFields (pkt : Packet) (user : Option String)
    (resp reasonStr : String) : AuditFields :=
  { username := user,
    nas_ip := some (pkt.nas_ip.getD pkt.sourceIp),
    nas_port := pkt.nas_port,
    called_station_id := pkt.called_station_id,
    calling_station_id := pkt.calling_station_id,
    request_type := "Access-Request", response_type := resp,
    reason := reasonStr }

/-- Outcome of the `try` body: a reply was computed, or an exception was
raised after the listed audit calls and store interactions. -/
inductive BodyResult where
  | done (reply : Reply) (audits : List AuditFields) (evs : List QEvent)
  | raised (msg : String) (audits : List AuditFields) (evs : List QEvent)
deriving DecidableEq, Repr

/-- The `if not mac_address` branch: warn, audit with username `'unknown'`
and reason `'No MAC address found in request'`, reply reject.  The audit call
is inside the `try`, so its escaping exception raises out of the body. -/
def authBodyNoId (db : Db) (pkt : Packet) : BodyResult :=
  let f := mkAuditFields pkt (some "unknown") "Access-Reject"
    "No MAC address found in request"
  match log_radius_request db f with
  | (Except.error e, ev) => BodyResult.raised (pyExnMsg e) [f] ev
  | (Except.ok _, ev) => BodyResult.done (create_reject_packet pkt) [f] ev

/-- The resolver branch of the body: look up the VLAN, then audit and build
the reply; the resolver and both audit calls can raise out of the body. -/
def authBodyMac (db : Db) (pkt : Packet) (mac : String) : BodyResult :=
  match get_vlan_for_mac db mac with
  | (Except.error e, qev) => BodyResult.raised (pyExnMsg e) [] qev
  | (Except.ok none, qev) =>
    let f := mkAuditFields pkt (some mac) "Access-Reject"
      ("No VLAN assignment found for MAC " ++ mac)
    match log_radius_request db f with
    | (Except.error e, ev) => BodyResult.raised (pyExnMsg e) [f] (qev ++ ev)
    | (Except.ok _, ev) =>
      BodyResult.done (create_reject_packet pkt) [f] (qev ++ ev)
  | (Except.ok (some (vlan, mt)), qev) =>
    let f := mkAuditFields pkt (some mac) "Access-Accept"
      ("VLAN " ++ toString vlan ++ " assigned via " ++ mt ++ " match")
    match log_radius_request db f with
    | (Except.error e, ev) => BodyResult.raised (pyExnMsg e) [f] (qev ++ ev)
    | (Except.ok _, ev) =>
      BodyResult.done (create_accept_packet pkt vlan) [f] (qev ++ ev)

/-- The `try` body: raise the injected fault if any, else dispatch on the
extracted identity; `if not mac_address` treats both an absent identity and
the empty string as missing. -/
def authBody (db : Db) (fault : Option String) (pkt : Packet)
    (macId : Option String) : BodyResult :=
  match fault with
  | some msg => BodyResult.raised msg [] []
  | none =>
    match macId with
    | none => authBodyNoId db pkt
    | some mac => if mac = "" then authBodyNoId db pkt else authBodyMac db pkt mac

/-- `UniFiRadiusServer.HandleAuthPacket`: run the body; on a raised
exception, the `except Exception` handler audits the server error (username
is the `mac_address` local, possibly `None`) and replies reject — unless that
audit call itself raises, in which case the exception escapes and no reply is
ever assigned or sent (`none`).  Returns the reply, the audit calls issued,
and the trace of store interactions. -/
def HandleAuthPacket (db : Db) (fault : Option String) (pkt : Packet) :
    Option Reply × List AuditFields × List QEvent :=
  let macId := extractIdentity pkt
  match authBody db fault pkt macId with
  | BodyResult.done r audits evs => (some r, audits, evs)
  | BodyResult.raised msg audits evs =>
    let f := mkAuditFields pkt macId "Access-Reject" ("Server error: " ++ msg)
    match log_radius_request db f with
    | (Except.error _, ev) => (none, audits ++ [f], evs ++ ev)
    | (Except.ok _, ev) =>
      (some (create_reject_packet pkt), audits ++ [f], evs ++ ev)

/-! ### Helper lemmas -/

/-- Events that only the resolver emits (the normalizer runs on entry). -/
def isResolutionEvent (e : QEvent) : Bool :=
  e = QEvent.nrm || e = QEvent.qExact || e = QEvent.qPfx || e = QEvent.qDefault

/-- The three rule lookups. -/
def isLookupEvent (e : QEvent) : Bool :=
  e = QEvent.qExact || e = QEvent.qPfx || e = QEvent.qDefault

theorem charOfNat_toNat (n : Nat) (h : n.isValidChar) :
    (Char.ofNat n).toNat = n := by
  unfold Char.ofNat
  rw [dif_pos h]
  rfl

theorem pyToLower_pyToLower (c : Char) : pyToLower (pyToLower c) = pyToLower c := by
  unfold pyToLower Char.toLower
  by_cases h : c.toNat ≥ 65 ∧ c.toNat ≤ 90
  · rw [if_pos h]
    have hv : (c.toNat + 32).isValidChar := by left; omega
    have ht : (Char.ofNat (c.toNat + 32)).toNat = c.toNat + 32 :=
      charOfNat_toNat _ hv
    rw [ht, if_neg (by omega)]
  · rw [if_neg h, if_neg h]

theorem pyIsAlnum_pyToLower (c : Char) (h : pyIsAlnum c = true) :
    pyIsAlnum (pyToLower c) = true := by
  unfold pyIsAlnum pyToLower Char.toLower at *
  by_cases hu : c.toNat ≥ 65 ∧ c.toNat ≤ 90
  · rw [if_pos hu]
    have hv : (c.toNat + 32).isValidChar := by left; omega
    have ht : (Char.ofNat (c.toNat + 32)).toNat = c.toNat + 32 :=
      charOfNat_toNat _ hv
    have h1 : (Char.ofNat (c.toNat + 32)).val ≥ 97 := by
      show 97 ≤ (Char.ofNat (c.toNat + 32)).toNat
      omega
    have h2 : (Char.ofNat (c.toNat + 32)).val ≤ 122 := by
      show (Char.ofNat (c.toNat + 32)).toNat ≤ 122
      omega
    simp [Char.isAlphanum, Char.isAlpha, Char.isLower, h1, h2]
  · rw [if_neg hu]; exact h

theorem filter_insertColons (p : Char → Bool) (hp : p ':' = false) :
    ∀ l, (insertColons l).filter p = l.filter p
  | [] => by simp [insertColons]
  | [a] => by simp [insertColons]
  | [a, b] => by simp [insertColons]
  | a :: b :: c :: rest => by
    rw [insertColons]
    simp only [List.filter_cons, hp]
    rw [filter_insertColons p hp (c :: rest)]
    simp [List.filter_cons]

theorem map_fixed {α : Type} (f : α → α) :
    ∀ l : List α, (∀ c ∈ l, f c = c) → l.map f = l
  | [], _ => rfl
  | a :: t, h => by
    simp only [List.map_cons, h a (by simp)]
    rw [map_fixed f t (fun c hc => h c (by simp [hc]))]

/-- Every character of `cleanMac l` is alphanumeric. -/
theorem mem_cleanMac_alnum (l : List Char) (c : Char) (h : c ∈ cleanMac l) :
    pyIsAlnum c = true := by
  unfold cleanMac at h
  rcases List.mem_map.1 h with ⟨c₀, hc₀, rfl⟩
  exact pyIsAlnum_pyToLower c₀ (List.of_mem_filter hc₀)

/-- Every character of `cleanMac l` is fixed by lowercasing. -/
theorem mem_cleanMac_lower (l : List Char) (c : Char) (h : c ∈ cleanMac l) :
    pyToLower c = c := by
  unfold cleanMac at h
  rcases List.mem_map.1 h with ⟨c₀, _, rfl⟩
  exact pyToLower_pyToLower c₀

/-- Stripping and lowercasing undoes colon insertion on an already-clean
string. -/
theorem cleanMac_insertColons (l : List Char)
    (h1 : ∀ c ∈ l, pyIsAlnum c = true) (h2 : ∀ c ∈ l, pyToLower c = c) :
    cleanMac (insertColons l) = l := by
  unfold cleanMac
  rw [filter_insertColons pyIsAlnum (by decide)]
  rw [List.filter_eq_self.mpr h1]
  exact map_fixed pyToLower l h2

theorem pickMaxId_mem :
    ∀ (l : List DefaultVlanRow) (b : DefaultVlanRow), pickMaxId l = some b → b ∈ l
  | [], b, h => by simp [pickMaxId] at h
  | r :: rest, b, h => by
    rw [pickMaxId] at h
    cases hr : pickMaxId rest with
    | none =>
      rw [hr] at h
      dsimp only at h
      simp at h; simp [h]
    | some b' =>
      rw [hr] at h
      dsimp only at h
      by_cases hlt : b'.id < r.id
      · rw [if_pos hlt] at h
        simp at h; simp [h]
      · rw [if_neg hlt] at h
        simp at h
        subst h
        exact List.mem_cons_of_mem r (pickMaxId_mem rest _ hr)

/-- If `r` is in the list and every other element has a strictly smaller id,
the `ORDER BY id DESC LIMIT 1` model returns `r`. -/
theorem pickMaxId_eq_max :
    ∀ (l : List DefaultVlanRow) (r : DefaultVlanRow), r ∈ l →
      (∀ r' ∈ l, r' = r ∨ r'.id < r.id) → pickMaxId l = some r
  | [], r, hr, _ => by simp at hr
  | a :: rest, r, hr, hmax => by
    rw [pickMaxId]
    rcases List.mem_cons.1 hr with rfl | hr'
    · cases hp : pickMaxId rest with
      | none => rfl
      | some b =>
        have hb := pickMaxId_mem rest b hp
        dsimp only
        rcases hmax b (List.mem_cons_of_mem r hb) with rfl | hlt
        · rw [if_neg (lt_irrefl _)]
        · rw [if_pos hlt]
    · have ha := hmax a (List.mem_cons_self a rest)
      have hrec : pickMaxId rest = some r :=
        pickMaxId_eq_max rest r hr'
          (fun r' h' => hmax r' (List.mem_cons_of_mem a h'))
      rw [hrec]
      dsimp only
      rcases ha with rfl | hlt
      · rw [if_neg (lt_irrefl _)]
      · rw [if_neg (by omega)]



/-! ### Example fixtures used by witnesses and counterexamples -/

/-- Example store: one exact rule and one manufacturer-prefix rule covering
the same MAC, plus two enabled default rows. -/
def stW : Store :=
  { radreply := [{ username := "aa:bb:cc:dd:ee:ff",
                   attrName := "Tunnel-Private-Group-ID", value := 100 }]
    mac_prefixes := [{ pfx := "aa:bb:cc", vlan_id := 300 }]
    default_vlan_config := [{ id := 1, enabled := true, vlan_id := 50 },
                            { id := 2, enabled := true, vlan_id := 60 }] }

/-- Healthy store connection over `stW`. -/
def dbW : Db :=
  { avail := true, failCursor := false, failQueries := false,
    failInsert := false, store := stW }

/-- Unobtainable connection over the same rules. -/
def dbDown : Db :=
  { avail := false, failCursor := false, failQueries := false,
    failInsert := false, store := stW }

/-- Healthy connection over an empty rule set. -/
def dbEmpty : Db :=
  { avail := true, failCursor := false, failQueries := false,
    failInsert := false,
    store := { radreply := [], mac_prefixes := [], default_vlan_config := [] } }

/-- A stale pooled connection: `get_connection` returns the cached object but
`conn.cursor()` raises. -/
def dbStale : Db :=
  { avail := true, failCursor := true, failQueries := false,
    failInsert := false, store := stW }

/-- Example request packet carrying a known MAC. -/
def pktW : Packet :=
  { calling_station_id := some "aa:bb:cc:dd:ee:ff", user_name := none,
    nas_ip := none, nas_port := none, called_station_id := none,
    sourceIp := "10.0.0.1" }

/-! ### The claims -/

/-- C1: resolution tries the tiers in the fixed order exact, then prefix,
then default: whenever the `radreply` exact lookup yields a row, its VLAN is
returned with match type `exact` (regardless of any `mac_prefixes` row), and
whenever the exact lookup misses and the prefix lookup yields a row, that
VLAN is returned with match type `prefix`. -/
theorem vlan_resolution_precedence (db : Db) (mac nm : String)
    (ha : db.avail = true) (hc : db.failCursor = false)
    (hq : db.failQueries = false)
    (hn : normalize_mac mac = some nm) :
    (∀ v, findExact db.store nm = some v →
      (get_vlan_for_mac db mac).1 = Except.ok (some (v, "exact"))) ∧
    (findExact db.store nm = none →
      ∀ w, findPfx db.store (macPfx nm) = some w →
        (get_vlan_for_mac db mac).1 = Except.ok (some (w, "prefix"))) := by
  constructor
  · intro v hv
    simp [get_vlan_for_mac, hn, ha, hc, hq, hv]
  · intro he w hw
    simp [get_vlan_for_mac, hn, ha, hc, hq, he, hw]

/-- C1 witness: a store holding both a DeviceRule (VLAN 100) and a PrefixRule
(VLAN 300) for the same MAC resolves to the DeviceRule with `exact`. -/
theorem vlan_resolution_precedence_witness :
    findExact dbW.store "aa:bb:cc:dd:ee:ff" = some 100 ∧
    findPfx dbW.store "aa:bb:cc" = some 300 ∧
    (get_vlan_for_mac dbW "AA:BB:CC:DD:EE:FF").1 =
      Except.ok (some (100, "exact")) := by
  refine ⟨by decide, by decide, ?_⟩
  exact (vlan_resolution_precedence dbW "AA:BB:CC:DD:EE:FF" "aa:bb:cc:dd:ee:ff"
    rfl rfl rfl (by decide)).1 100 (by decide)

/-- C2 counterexample: with the connection unobtainable (`dbDown`, whose rule
set would match the MAC) the resolver returns the same `(None, None)` as a
healthy connection over an empty rule set (`dbEmpty`), and the audit record
is identical, carrying the "No VLAN assignment found" reason — there is no
distinguishable StoreUnavailable outcome and no distinct audit reason. -/
theorem store_unavailable_indistinguishable :
    (get_vlan_for_mac dbDown "aa:bb:cc:dd:ee:ff").1 = Except.ok none ∧
    (get_vlan_for_mac dbEmpty "aa:bb:cc:dd:ee:ff").1 = Except.ok none ∧
    (HandleAuthPacket dbDown none pktW).2.1 =
      (HandleAuthPacket dbEmpty none pktW).2.1 ∧
    (HandleAuthPacket dbDown none pktW).2.1.map (fun fl => fl.reason) =
      ["No VLAN assignment found for MAC aa:bb:cc:dd:ee:ff"] := by
  refine ⟨by decide, by decide, by decide, by decide⟩

/-- C2 amended: when the store connection cannot be obtained or a query
fails during resolution of a valid MAC, the resolver returns the same
`(None, None)` no-match outcome as a legitimate miss, and the audit record
carries the same "No VLAN assignment found for MAC ..." reason used when no
rule matches (store unavailability is not distinguishable to the caller). -/
theorem store_failure_returns_nomatch (db : Db) (mac nm : String) (pkt : Packet)
    (hn : normalize_mac mac = some nm)
    (hc : db.failCursor = false)
    (hf : db.avail = false ∨ db.failQueries = true) :
    (get_vlan_for_mac db mac).1 = Except.ok none ∧
    (extractIdentity pkt = some mac →
      (HandleAuthPacket db none pkt).1.map (fun r => r.code) = some 3 ∧
      (HandleAuthPacket db none pkt).2.1.map (fun fl => fl.reason) =
        ["No VLAN assignment found for MAC " ++ mac]) := by
  have hne : ¬ mac = "" := by
    intro h
    rw [h, (by decide : normalize_mac "" = none)] at hn
    exact Option.noConfusion hn
  have hres : (get_vlan_for_mac db mac).1 = Except.ok none := by
    rcases hf with hf | hf
    · simp [get_vlan_for_mac, hn, hf]
    · by_cases ha : db.avail <;> simp [get_vlan_for_mac, hn, ha, hc, hf]
  refine ⟨hres, fun hm => ?_⟩
  rcases hg : get_vlan_for_mac db mac with ⟨res, qev⟩
  rw [hg] at hres
  simp at hres
  subst hres
  rcases db with ⟨a, fc, q, i, st⟩
  simp at hc
  subst hc
  cases a <;> cases i <;>
    simp [HandleAuthPacket, authBody, authBodyMac, hm, hne, hg,
      log_radius_request, mkAuditFields, create_reject_packet]

/-- C2 amended witness: with the connection down the request for a valid
known MAC is rejected with the ordinary no-assignment outcome. -/
theorem store_failure_returns_nomatch_witness :
    (get_vlan_for_mac dbDown "aa:bb:cc:dd:ee:ff").1 = Except.ok none ∧
    (HandleAuthPacket dbDown none pktW).1.map (fun r => r.code) = some 3 := by
  have h := store_failure_returns_nomatch dbDown "aa:bb:cc:dd:ee:ff"
    "aa:bb:cc:dd:ee:ff" pktW (by decide) rfl (Or.inl rfl)
  exact ⟨h.1, (h.2 (by decide)).1⟩

/-- C3 evaluation at the failing input: `"0xaabbccddee"` strips to a
12-character alphanumeric string that is not all hex digits (it contains
`x`), yet `normalize_mac` accepts it — Python `int(clean, 16)` tolerates the
`0x` prefix — and returns `"0x:aa:bb:cc:dd:ee"` instead of the `Invalid`
the claim (and the source's own "verify all characters are valid
hexadecimal" comment) requires. -/
theorem normalize_mac_accepts_hex_marker :
    normalize_mac "0xaabbccddee" = some "0x:aa:bb:cc:dd:ee" ∧
    (cleanMac ("0xaabbccddee".toList)).length = 12 ∧
    (cleanMac ("0xaabbccddee".toList)).all pyIsHexDigit = false := by
  refine ⟨by decide, by decide, by decide⟩

/-- C4 evaluation at the failing input: the claim fails on the code.  With
the pooled connection stale (`conn.cursor()` raising), `get_vlan_for_mac`
raises `UnboundLocalError` out of its `finally`; the `except Exception`
handler's own `log_radius_request` call raises the same way, and that
exception escapes `HandleAuthPacket` before any reply is assigned or sent:
the request for a valid known MAC terminates with zero replies (and no
persisted audit record, the one attempted insert never having executed). -/
theorem zero_replies_on_stale_connection :
    (HandleAuthPacket dbStale none pktW).1 = none ∧
    (HandleAuthPacket dbStale none pktW).2.1.map (fun fl => fl.reason) =
      ["Server error: local variable 'cursor' referenced before assignment"] ∧
    (HandleAuthPacket dbStale none pktW).2.2.filter
      (fun e => e = QEvent.qInsert) = [] := by
  refine ⟨by decide, by decide, by decide⟩

/-- C5: identity extraction prefers `Calling-Station-Id` over `User-Name`
(even when both are present), falls back to `User-Name` when the former is
absent, and when both are absent the engine rejects with the
no-identity audit reason without entering the resolver (no normalization
and no rule lookup event occurs). -/
theorem identity_extraction_order (db : Db) (pkt : Packet)
    (hc : db.failCursor = false) :
    (∀ m, pkt.calling_station_id = some m → extractIdentity pkt = some m) ∧
    (pkt.calling_station_id = none → extractIdentity pkt = pkt.user_name) ∧
    (pkt.calling_station_id = none → pkt.user_name = none →
      (HandleAuthPacket db none pkt).1.map (fun r => r.code) = some 3 ∧
      (HandleAuthPacket db none pkt).2.1.map (fun fl => fl.reason) =
        ["No MAC address found in request"] ∧
      (HandleAuthPacket db none pkt).2.2.filter isResolutionEvent = []) := by
  refine ⟨?_, ?_, ?_⟩
  · intro m hm; simp [extractIdentity, hm]
  · intro hcs; simp [extractIdentity, hcs]
  · intro hcs hu
    have hm : extractIdentity pkt = none := by simp [extractIdentity, hcs, hu]
    rcases db with ⟨a, fc, q, i, st⟩
    simp at hc
    subst hc
    cases a <;> cases i <;>
      simp [HandleAuthPacket, authBody, authBodyNoId, hm, create_reject_packet,
        log_radius_request, mkAuditFields, isResolutionEvent]

/-- C5 witness: a packet with neither attribute is rejected. -/
theorem identity_extraction_order_witness :
    (HandleAuthPacket dbW none
      { calling_station_id := none, user_name := none, nas_ip := none,
        nas_port := none, called_station_id := none,
        sourceIp := "10.0.0.9" }).1.map (fun r => r.code) = some 3 := by
  exact ((identity_extraction_order dbW _ rfl).2.2 rfl rfl).1

/-- C7: when the extracted identity fails normalization, the request is
rejected after exactly one audit call and the trace contains no DeviceRule,
PrefixRule or DefaultPolicy lookup. -/
theorem malformed_identity_no_lookup (db : Db) (pkt : Packet) (mac : String)
    (hc : db.failCursor = false)
    (hm : extractIdentity pkt = some mac) (hn : normalize_mac mac = none) :
    (HandleAuthPacket db none pkt).1.map (fun r => r.code) = some 3 ∧
    ((HandleAuthPacket db none pkt).2.1).length = 1 ∧
    (HandleAuthPacket db none pkt).2.2.filter isLookupEvent = [] := by
  rcases db with ⟨a, fc, q, i, st⟩
  simp at hc
  subst hc
  by_cases hemp : mac = ""
  · subst hemp
    cases a <;> cases i <;>
      simp [HandleAuthPacket, authBody, authBodyNoId, hm, create_reject_packet,
        log_radius_request, mkAuditFields, isLookupEvent]
  · have hg : get_vlan_for_mac ⟨a, false, q, i, st⟩ mac =
        (Except.ok none, [QEvent.nrm]) := by
      simp [get_vlan_for_mac, hn]
    cases a <;> cases i <;>
      simp [HandleAuthPacket, authBody, authBodyMac, hm, hemp, hg,
        create_reject_packet, log_radius_request, mkAuditFields, isLookupEvent]

/-- C7 witness: the spec's scenario input `"invalid-mac"`. -/
theorem malformed_identity_no_lookup_witness :
    (HandleAuthPacket dbW none
      { pktW with calling_station_id := some "invalid-mac" }).1.map
        (fun r => r.code) = some 3 := by
  exact (malformed_identity_no_lookup dbW
    { pktW with calling_station_id := some "invalid-mac" } "invalid-mac"
    rfl (by decide) (by decide)).1

/-- C6: when neither the exact nor the prefix tier matches, the enabled
default row with the greatest id determines the result (match type
`default`), and if no enabled default row exists the resolver returns the
no-match outcome. -/
theorem default_vlan_fallback (db : Db) (mac nm : String)
    (ha : db.avail = true) (hc : db.failCursor = false)
    (hq : db.failQueries = false)
    (hn : normalize_mac mac = some nm)
    (he : findExact db.store nm = none)
    (hp : findPfx db.store (macPfx nm) = none) :
    (∀ r, r ∈ db.store.default_vlan_config → r.enabled = true →
      (∀ r', r' ∈ db.store.default_vlan_config → r'.enabled = true →
        r' = r ∨ r'.id < r.id) →
      (get_vlan_for_mac db mac).1 = Except.ok (some (r.vlan_id, "default"))) ∧
    ((∀ r, r ∈ db.store.default_vlan_config → r.enabled = false) →
      (get_vlan_for_mac db mac).1 = Except.ok none) := by
  constructor
  · intro r hr hen hmax
    have hfil : r ∈ db.store.default_vlan_config.filter (·.enabled) :=
      List.mem_filter.2 ⟨hr, by simp [hen]⟩
    have hmax' : ∀ r' ∈ db.store.default_vlan_config.filter (·.enabled),
        r' = r ∨ r'.id < r.id := by
      intro r' h'
      exact hmax r' (List.mem_filter.1 h').1 (by simpa using (List.mem_filter.1 h').2)
    have hpick := pickMaxId_eq_max _ r hfil hmax'
    have hd : findDefault db.store = some r.vlan_id := by
      simp [findDefault, hpick]
    simp [get_vlan_for_mac, hn, ha, hc, hq, he, hp, hd]
  · intro hall
    have hfil : db.store.default_vlan_config.filter (·.enabled) = [] :=
      List.filter_eq_nil_iff.2 (fun r hr => by simp [hall r hr])
    have hd : findDefault db.store = none := by
      simp [findDefault, hfil, pickMaxId]
    simp [get_vlan_for_mac, hn, ha, hc, hq, he, hp, hd]

/-- C6 witness: a MAC matching no rule falls back to the enabled default row
with the highest id (id 2, VLAN 60), not the older row (id 1, VLAN 50). -/
theorem default_vlan_fallback_witness :
    (get_vlan_for_mac dbW "99:88:77:66:55:44").1 =
      Except.ok (some (60, "default")) := by
  have h := default_vlan_fallback dbW "99:88:77:66:55:44" "99:88:77:66:55:44"
    rfl rfl rfl (by decide) (by decide) (by decide)
  exact h.1 { id := 2, enabled := true, vlan_id := 60 } (by decide) rfl (by decide)

/-- C8: the accept reply carries exactly the three tunnel attributes with
tunnel type 13, medium type 6, and the decimal string of the VLAN id, the
reject reply carries no attributes, and both copy the request's source;
both builders are pure functions of their arguments. -/
theorem reply_builder_contract (pkt : Packet) (vlan_id : Int) :
    (create_accept_packet pkt vlan_id).code = 2 ∧
    (create_accept_packet pkt vlan_id).attrs =
      [("Tunnel-Type", AttrVal.intVal 13),
       ("Tunnel-Medium-Type", AttrVal.intVal 6),
       ("Tunnel-Private-Group-ID", AttrVal.strVal (toString vlan_id))] ∧
    (create_accept_packet pkt vlan_id).source = pkt.sourceIp ∧
    (create_reject_packet pkt).code = 3 ∧
    (create_reject_packet pkt).attrs = [] ∧
    (create_reject_packet pkt).source = pkt.sourceIp :=
  ⟨rfl, rfl, rfl, rfl, rfl, rfl⟩

/-- C9 evaluation at the failing input: the claim fails on the code.  With
the pooled connection stale, `conn.cursor()` raises `mysql.connector.Error`
inside the `try`; the `except` pends `return False`, but
`finally: cursor.close()` references the never-bound local `cursor` and
`UnboundLocalError` escapes to the caller — `log_radius_request` does raise,
and no audit row is inserted. -/
theorem audit_raises_on_stale_connection :
    (log_radius_request dbStale
      (mkAuditFields pktW (some "aa:bb:cc:dd:ee:ff") "Access-Reject"
        "No VLAN assignment found for MAC aa:bb:cc:dd:ee:ff")).1 =
      Except.error PyExn.unboundLocal ∧
    (log_radius_request dbStale
      (mkAuditFields pktW (some "aa:bb:cc:dd:ee:ff") "Access-Reject"
        "No VLAN assignment found for MAC aa:bb:cc:dd:ee:ff")).2.filter
      (fun e => e = QEvent.qInsert) = [] := by
  refine ⟨by decide, by decide⟩

/-- Helper for C10: an output of `normalizeList` is a fixed point. -/
theorem normalizeList_fixed (l cl : List Char) (h : normalizeList l = some cl) :
    normalizeList cl = some cl := by
  unfold normalizeList at h ⊢
  by_cases h0 : l.isEmpty
  · simp [h0] at h
  rw [if_neg (by simp [h0])] at h
  by_cases hlen : (cleanMac l).length = 12
  case neg => simp [hlen] at h
  rw [if_pos hlen] at h
  by_cases hok : pyIntBase16Ok (cleanMac l) = true
  case neg => simp [hok] at h
  rw [if_pos hok] at h
  have hcl : insertColons (cleanMac l) = cl := by
    injection h
  have hfix : cleanMac cl = cleanMac l := by
    rw [← hcl]
    exact cleanMac_insertColons (cleanMac l)
      (fun c hc => mem_cleanMac_alnum l c hc)
      (fun c hc => mem_cleanMac_lower l c hc)
  have hne : cl.isEmpty = false := by
    cases cl with
    | nil =>
      exfalso
      have hemp : cleanMac ([] : List Char) = [] := rfl
      rw [hemp] at hfix
      rw [← hfix] at hlen
      simp at hlen
    | cons a t => rfl
  rw [if_neg (by simp [hne]), hfix, if_pos hlen, if_pos hok, hcl]

/-- C10: `normalize_mac` is idempotent — every accepted canonical output
normalizes to itself. -/
theorem normalize_idempotent (x y : String) (h : normalize_mac x = some y) :
    normalize_mac y = some y := by
  unfold normalize_mac at h ⊢
  rcases hl : normalizeList x.toList with _ | l
  · rw [hl] at h; simp at h
  · rw [hl] at h
    simp at h
    have h2 : normalizeList l = some l := normalizeList_fixed x.toList l hl
    rw [← h]
    show (normalizeList (String.mk l).toList).map String.mk = some (String.mk l)
    have hts : (String.mk l).toList = l := rfl
    rw [hts, h2]
    rfl

/-- C10 witness: the canonical form of `"AA:BB:CC:DD:EE:FF"` is a fixed
point of `normalize_mac`. -/
theorem normalize_idempotent_witness :
    normalize_mac "aa:bb:cc:dd:ee:ff" = some "aa:bb:cc:dd:ee:ff" :=
  normalize_idempotent "AA:BB:CC:DD:EE:FF" "aa:bb:cc:dd:ee:ff" (by decide)

end UnifiRadius
